import Mathlib

/-!
Shallow embedding of the STM32WLxx window watchdog (WWDG) driver
(`src/hal/src/watchdog.rs`) and proofs about its quantization and
register-write behaviour.

Machine integers (`u32`, `u8`) are modelled as `Nat`; the `as u8` casts in
the source become `% 256`.  Register fields are plain `Nat`/`Bool` fields of
structures mirroring the peripheral's CR and CFR registers.  The external
clock-tree query `pclk1_hz(rcc)` is modelled as an explicit `pclk` argument.
-/

namespace Stm32wl

/-- `const WWDG_DIV : u32 = 4096;` -/
def WWDG_DIV : Nat := 4096

/-- `const WWDG_MAX_PRESCALER : u32 = 128;` -/
def WWDG_MAX_PRESCALER : Nat := 128

/-- `const WWDG_MAX_RELOAD : u32 = 0x3F;` -/
def WWDG_MAX_RELOAD : Nat := 0x3F

/-- WWDG control register (CR): 7-bit down-counter `t`, enable bit `wdga`. -/
structure CR where
  t : Nat
  wdga : Bool
  deriving Repr, DecidableEq

/-- WWDG configuration register (CFR): 7-bit window threshold `w`,
3-bit prescaler field `wdgtb`, early-wakeup-interrupt enable `ewi`. -/
structure CFR where
  w : Nat
  wdgtb : Nat
  ewi : Bool
  deriving Repr, DecidableEq

/-- The WWDG register block (the two registers the driver touches). -/
structure WWDGRegs where
  cr : CR
  cfr : CFR
  deriving Repr, DecidableEq

/-- `pub struct WindowWatchdog { wwdg : WWDG, reload : u8 }` -/
structure WindowWatchdog where
  wwdg : WWDGRegs
  reload : Nat
  deriving Repr, DecidableEq

namespace WindowWatchdog

/-- `WindowWatchdog::new`: fresh driver over reset-state registers
(CR = 0x7F, CFR = 0x7F on this device), cached reload 0.  The RCC clock-gate
side effect has no register-level model here. -/
def new : WindowWatchdog :=
  { wwdg := { cr := { t := 0x7F, wdga := false }
              cfr := { w := 0x7F, wdgtb := 0, ewi := false } }
    reload := 0 }

/-- `fn clock_period_us(&self, rcc : &RCC) -> u32`:
`1_000_000 / ((pclk / WWDG_DIV) / div)` with `div = 1 << cfr.wdgtb`. -/
def clock_period_us (s : WindowWatchdog) (pclk : Nat) : Nat :=
  1000000 / ((pclk / WWDG_DIV) / (2 ^ s.wwdg.cfr.wdgtb))

/-- `pub fn set_window_us(&self, us : u32, rcc : &RCC)`.
Returns the `debug_assert!(cycles > 0)` outcome (`true` = assertion passed)
together with the new state; the CFR write is
`w.w().bits(0x40 & cycles as u8)`. -/
def set_window_us (s : WindowWatchdog) (us pclk : Nat) : Bool × WindowWatchdog :=
  let us_per_cycle := clock_period_us s pclk
  let cycles := us / us_per_cycle
  (decide (cycles > 0),
   { s with wwdg.cfr.w := 0x40 &&& (cycles % 256) })

/-- `pub fn interval_us(&self, rcc : &RCC) -> u32`:
`self.reload as u32 * us_per_cycle`. -/
def interval_us (s : WindowWatchdog) (pclk : Nat) : Nat :=
  s.reload * clock_period_us s pclk

/-- `pub fn enable_ewi(&self, enabled : bool)`. -/
def enable_ewi (s : WindowWatchdog) (enabled : Bool) : WindowWatchdog :=
  { s with wwdg.cfr.ewi := enabled }

/-- `fn feed(&mut self)`: `self.wwdg.cr.write(|w| w.t().bits(0x40 & self.reload))`.
A `write` (not `modify`) starts from the register's reset value, so the
register-level effect also clears `wdga` (which real hardware ignores:
the bit is set-once). -/
def feed (s : WindowWatchdog) : WindowWatchdog :=
  { s with wwdg.cr := { t := 0x40 &&& s.reload, wdga := false } }

/-- The quantization loop inside `WindowWatchdog::setup` (lines 149-164):
starting from `psc = 0` and `reload = target_us / us_per_cycle`, repeatedly
halve `reload` and bump `psc` until `psc >= WWDG_MAX_PRESCALER` (then clamp
`reload` to `WWDG_MAX_RELOAD`) or `reload <= WWDG_MAX_RELOAD`.
Returns the final `(psc, reload)` pair. -/
def setupLoop (psc reload : Nat) : Nat × Nat :=
  if WWDG_MAX_PRESCALER ≤ psc then
    (psc, if WWDG_MAX_RELOAD < reload then WWDG_MAX_RELOAD else reload)
  else if reload ≤ WWDG_MAX_RELOAD then
    (psc, reload)
  else
    setupLoop (psc + 1) (reload / 2)
termination_by WWDG_MAX_PRESCALER - psc
decreasing_by simp only [WWDG_MAX_PRESCALER] at *; omega

/-- `fn setup(&mut self, target_us : u32, rcc : &RCC)`: run the quantization
loop, cache the reload (`self.reload = reload as u8`), then `self.feed()`.
The loop's final `psc` is dropped (no write to `wdgtb`). -/
def setup (s : WindowWatchdog) (target_us pclk : Nat) : WindowWatchdog :=
  let us_per_cycle := clock_period_us s pclk
  let q := setupLoop 0 (target_us / us_per_cycle)
  feed { s with reload := q.2 % 256 }

/-- `fn start<T>(&mut self, period: T)` from the `WatchdogEnable` impl:
`setup` then `self.wwdg.cr.modify(|_, w| w.wdga().enabled())`. -/
def start (s : WindowWatchdog) (period pclk : Nat) : WindowWatchdog :=
  let s' := setup s period pclk
  { s' with wwdg.cr.wdga := true }

/-- A fuel-indexed copy of the `setup` quantization loop, used to state
termination as a theorem: `none` means the fuel ran out before the loop
exited. -/
def setupLoopFuel : Nat → Nat → Nat → Option (Nat × Nat)
  | 0, _, _ => none
  | fuel + 1, psc, reload =>
    if WWDG_MAX_PRESCALER ≤ psc then
      some (psc, if WWDG_MAX_RELOAD < reload then WWDG_MAX_RELOAD else reload)
    else if reload ≤ WWDG_MAX_RELOAD then
      some (psc, reload)
    else
      setupLoopFuel fuel (psc + 1) (reload / 2)

/-- Modelled from the spec: `microseconds_per_cycle` "computed with integer
arithmetic scaled to avoid fractional loss (multiply before divide)", the
exact rational `1_000_000 * 4096 * 2^wdgtb / pclk`.  This is the comparison
point for the truncating formula `clock_period_us` in the source. -/
def clock_period_us_spec (pclk wdgtb : Nat) : Nat :=
  1000000 * WWDG_DIV * 2 ^ wdgtb / pclk

end WindowWatchdog

end Stm32wl

namespace Stm32wl.WindowWatchdog

/-- On every exit path the quantization loop leaves `reload` at most
`WWDG_MAX_RELOAD` (either it exited because `reload` was already small
enough, or it clamped). -/
lemma setupLoop_snd_le (psc reload : Nat) :
    (setupLoop psc reload).2 ≤ WWDG_MAX_RELOAD := by
  induction psc, reload using setupLoop.induct with
  | case1 psc reload h =>
    unfold setupLoop
    simp only [if_pos h]
    split <;> omega
  | case2 psc reload h h2 =>
    unfold setupLoop
    simp only [if_neg h, if_pos h2]
    exact h2
  | case3 psc reload h h2 ih =>
    unfold setupLoop
    simp only [if_neg h, if_neg h2]
    exact ih

/-- Each halving step divides the remaining headroom by two: if the initial
reload fits in `WWDG_MAX_RELOAD * 2^n` cycles, the loop performs at most `n`
prescaler increments. -/
lemma setupLoop_fst_le (n : Nat) : ∀ psc reload,
    reload ≤ WWDG_MAX_RELOAD * 2 ^ n →
    (setupLoop psc reload).1 ≤ psc + n := by
  induction n with
  | zero =>
    intro psc reload h
    unfold setupLoop
    split
    · omega
    · split
      · omega
      · simp only [WWDG_MAX_RELOAD, pow_zero, mul_one] at *
        omega
  | succ n ih =>
    intro psc reload h
    unfold setupLoop
    split
    · omega
    · split
      · omega
      · have hdiv : reload / 2 ≤ WWDG_MAX_RELOAD * 2 ^ n := by
          calc reload / 2 ≤ WWDG_MAX_RELOAD * 2 ^ (n + 1) / 2 :=
                Nat.div_le_div_right h
            _ = WWDG_MAX_RELOAD * 2 ^ n := by
                rw [pow_succ, ← mul_assoc, Nat.mul_div_cancel _ two_pos]
        have := ih (psc + 1) (reload / 2) hdiv
        omega

/-- With enough fuel (more than the remaining prescaler budget), the fueled
loop never runs out and computes exactly what the source loop computes. -/
lemma setupLoopFuel_eq (fuel : Nat) : ∀ psc reload,
    WWDG_MAX_PRESCALER - psc < fuel →
    setupLoopFuel fuel psc reload = some (setupLoop psc reload) := by
  induction fuel with
  | zero =>
    intro psc reload h
    exact absurd h (Nat.not_lt_zero _)
  | succ fuel ih =>
    intro psc reload h
    rw [setupLoopFuel]
    unfold setupLoop
    split
    · rfl
    · split
      · rfl
      · have hlt : psc < WWDG_MAX_PRESCALER := by omega
        exact ih (psc + 1) (reload / 2) (by omega)

end Stm32wl.WindowWatchdog

open Stm32wl Stm32wl.WindowWatchdog

/-- C1: the claim says `feed()` writes the cached reload with the active bit
set (preserving `r`).  The code instead writes `0x40 & reload`, which masks
the reload bits away: after `start(5120)` at PCLK1 = 1 MHz the cached reload
is 1, yet the counter field written by `feed` is 0, not `0x41`. -/
theorem feed_writes_masked_counter :
    (start new 5120 1000000).reload = 1 ∧
    (feed (start new 5120 1000000)).wwdg.cr.t = 0 ∧
    (feed (start new 5120 1000000)).wwdg.cr.t ≠ 0x41 := by
  refine ⟨?_, ?_, ?_⟩ <;>
    simp [start, setup, feed, new, clock_period_us, setupLoop,
      WWDG_MAX_PRESCALER, WWDG_MAX_RELOAD, WWDG_DIV]

/-- C2: the claim says that for a duration beyond the maximum representable
one the quantization saturates at `(max_prescaler_index, 0x3F)`.  The code
compares the prescaler index `psc` against the division ratio 128, so it
keeps halving instead: at PCLK1 = 1 MHz (cycle 4098 µs) a request of
4 000 000 000 µs (beyond the 63 × 128-cycle maximum) quantizes to
`(psc, reload) = (14, 59)`, not `(7, 0x3F)`. -/
theorem setup_no_saturation_at_max_prescaler :
    WWDG_MAX_RELOAD * WWDG_MAX_PRESCALER * clock_period_us new 1000000
        < 4000000000 ∧
    setupLoop 0 (4000000000 / clock_period_us new 1000000) = (14, 59) ∧
    (14 : Nat) ≠ 7 ∧ (59 : Nat) ≠ WWDG_MAX_RELOAD := by
  refine ⟨by decide, ?_, by decide, by decide⟩
  simp [new, clock_period_us, setupLoop,
    WWDG_MAX_PRESCALER, WWDG_MAX_RELOAD, WWDG_DIV]

/-- C3: the claim says `set_window_us` writes the quantized cycle count into
the `w` field (restricted to its documented width).  The code writes
`0x40 & cycles`, masking the cycle bits out: at PCLK1 = 1 MHz a request of
8196 µs gives `cycles = 2`, yet the written `w` field is 0, not 2. -/
theorem set_window_masks_out_cycles :
    8196 / clock_period_us new 1000000 = 2 ∧
    (set_window_us new 8196 1000000).2.wwdg.cfr.w = 0 ∧
    (set_window_us new 8196 1000000).2.wwdg.cfr.w ≠ 2 := by decide

/-- C4: neither `setup` nor `start` writes the `wdgtb` prescaler field: the
whole CFR register is unchanged by `start`, hence `clock_period_us` (and the
division ratio used by `interval_us`) reads exactly the same value after the
call as before. -/
theorem start_never_writes_wdgtb (s : WindowWatchdog) (d pclk pclk2 : Nat) :
    (start s d pclk).wwdg.cfr = s.wwdg.cfr ∧
    (start s d pclk).wwdg.cfr.wdgtb = s.wwdg.cfr.wdgtb ∧
    clock_period_us (start s d pclk) pclk2 = clock_period_us s pclk2 := by
  refine ⟨?_, ?_, ?_⟩ <;> simp [start, setup, feed, clock_period_us]

/-- C5: for any target duration of at least one cycle and at most
`WWDG_MAX_RELOAD * WWDG_MAX_PRESCALER` cycles, the quantization loop in
`setup` yields `reload ≤ 0x3F` and a prescaler index at most 7 (the index of
the widest division ratio 128). -/
theorem setup_quantization_within_limits (s : WindowWatchdog)
    (target_us pclk : Nat)
    (hc : 0 < clock_period_us s pclk)
    (h1 : 1 ≤ target_us / clock_period_us s pclk)
    (h2 : target_us / clock_period_us s pclk
            ≤ WWDG_MAX_RELOAD * WWDG_MAX_PRESCALER) :
    (setupLoop 0 (target_us / clock_period_us s pclk)).2 ≤ WWDG_MAX_RELOAD ∧
    (setupLoop 0 (target_us / clock_period_us s pclk)).1 ≤ 7 := by
  refine ⟨setupLoop_snd_le _ _, ?_⟩
  have he : WWDG_MAX_RELOAD * 2 ^ 7 = WWDG_MAX_RELOAD * WWDG_MAX_PRESCALER := by
    norm_num [WWDG_MAX_RELOAD, WWDG_MAX_PRESCALER]
  have h := setupLoop_fst_le 7 0 (target_us / clock_period_us s pclk)
    (by rw [he]; exact h2)
  omega

/-- C5 witness: the bounds hold at the concrete scenario PCLK1 = 1 MHz,
target 5120 µs. -/
theorem setup_quantization_within_limits_witness :
    (0 < clock_period_us new 1000000 ∧
     1 ≤ 5120 / clock_period_us new 1000000 ∧
     5120 / clock_period_us new 1000000
       ≤ WWDG_MAX_RELOAD * WWDG_MAX_PRESCALER) ∧
    ((setupLoop 0 (5120 / clock_period_us new 1000000)).2 ≤ WWDG_MAX_RELOAD ∧
     (setupLoop 0 (5120 / clock_period_us new 1000000)).1 ≤ 7) :=
  ⟨⟨by decide, by decide, by decide⟩,
   setup_quantization_within_limits new 5120 1000000
     (by decide) (by decide) (by decide)⟩

/-- C6: the claim says the decoded interval after `start(d)` is within one
quantization step below `d`.  Because the halved reload is committed while
`wdgtb` is never written, the decoded interval collapses: requesting
33 046 272 µs (= 8064 cycles at 4098 µs) at PCLK1 = 1 MHz decodes to
258 174 µs, far below `d` minus even the widest step
(`4098 × 128 = 524 544` µs). -/
theorem interval_after_start_far_below_request :
    interval_us (start new 33046272 1000000) 1000000 = 258174 ∧
    258174 < 33046272 - clock_period_us new 1000000 * WWDG_MAX_PRESCALER := by
  refine ⟨?_, by decide⟩
  simp [interval_us, start, setup, feed, new, clock_period_us, setupLoop,
    WWDG_MAX_PRESCALER, WWDG_MAX_RELOAD, WWDG_DIV]

/-- C7 counterexample: the claim says microseconds-per-cycle is computed
without loss from intermediate truncating division.  The source computes
`1_000_000 / ((pclk / 4096) / 2^wdgtb)`, which at PCLK1 = 1 MHz, wdgtb = 0
yields 4098 µs, while the exact rational `1_000_000 * 4096 * 2^0 / 1_000_000`
is 4096 µs. -/
theorem clock_period_us_truncation_loss :
    clock_period_us new 1000000 = 4098 ∧
    clock_period_us_spec 1000000 new.wwdg.cfr.wdgtb = 4096 ∧
    clock_period_us new 1000000
      ≠ clock_period_us_spec 1000000 new.wwdg.cfr.wdgtb := by decide

/-- C7 amended: `interval_us` decodes the cached reload as
`reload * clock_period_us`, where the per-cycle period uses the source's
nested truncating division `1_000_000 / ((pclk / 4096) / 2^wdgtb)` (divide
before multiply), which can deviate from the exact rational. -/
theorem interval_us_decode_truncating (s : WindowWatchdog) (pclk : Nat) :
    interval_us s pclk =
      s.reload * (1000000 / ((pclk / WWDG_DIV) / 2 ^ s.wwdg.cfr.wdgtb)) := rfl

/-- C8: scenario PCLK1 = 1 MHz, wdgtb = 0, `start(5120)`: the quantization
returns prescaler index 0 and reload 1, the cached reload is 1, and a
subsequent `interval_us` reproduces `1 × microseconds_per_cycle`. -/
theorem start_5120_scenario :
    clock_period_us new 1000000 = 4098 ∧
    setupLoop 0 (5120 / clock_period_us new 1000000) = (0, 1) ∧
    (start new 5120 1000000).reload = 1 ∧
    interval_us (start new 5120 1000000) 1000000 =
      1 * clock_period_us (start new 5120 1000000) 1000000 := by
  refine ⟨by decide, ?_, ?_, ?_⟩ <;>
    simp [interval_us, start, setup, feed, new, clock_period_us, setupLoop,
      WWDG_MAX_PRESCALER, WWDG_MAX_RELOAD, WWDG_DIV]

/-- C9: the `debug_assert!(cycles > 0)` in `set_window_us` passes exactly
when the requested duration is at least one clock cycle
(`us / us_per_cycle > 0`); the function itself returns no error value. -/
theorem set_window_assert_iff (s : WindowWatchdog) (us pclk : Nat)
    (hc : 0 < clock_period_us s pclk) :
    ((set_window_us s us pclk).1 = true ↔ clock_period_us s pclk ≤ us) := by
  simp only [set_window_us, decide_eq_true_eq, gt_iff_lt]
  constructor
  · intro h
    by_contra hlt
    rw [Nat.not_le] at hlt
    have : us / clock_period_us s pclk = 0 := Nat.div_eq_of_lt hlt
    omega
  · intro h
    exact Nat.div_pos h hc

/-- C9 witness: at PCLK1 = 1 MHz the cycle is 4098 µs, so a 5120 µs window
passes the assertion. -/
theorem set_window_assert_iff_witness :
    0 < clock_period_us new 1000000 ∧
    ((set_window_us new 5120 1000000).1 = true
      ↔ clock_period_us new 1000000 ≤ 5120) :=
  ⟨by decide, set_window_assert_iff new 5120 1000000 (by decide)⟩

/-- C10: the quantization loop terminates for every input: with any fuel
exceeding the remaining prescaler budget `WWDG_MAX_PRESCALER - psc`, the
fuel-indexed copy of the loop exits normally (never exhausts its fuel) and
agrees with the loop's value. -/
theorem setup_loop_terminates (fuel psc reload : Nat)
    (h : WWDG_MAX_PRESCALER - psc < fuel) :
    setupLoopFuel fuel psc reload = some (setupLoop psc reload) :=
  setupLoopFuel_eq fuel psc reload h

/-- C10 witness: 129 units of fuel settle the saturating input 976085. -/
theorem setup_loop_terminates_witness :
    WWDG_MAX_PRESCALER - 0 < 129 ∧
    setupLoopFuel 129 0 976085 = some (setupLoop 0 976085) :=
  ⟨by decide, setup_loop_terminates 129 0 976085 (by decide)⟩
